import Mathlib

/-!
Verification of `rhiza-tools`' version-bump command
(`src/rhiza_tools/commands/bump.py`).

The command reads `project.version` from `pyproject.toml`, determines a
target version from a CLI argument (a bump keyword, an explicit version,
or an interactive choice), validates it, and — unless `--dry-run` — writes
it back and re-reads the file to verify the persisted value.

External collaborators are modelled as follows:
* `semver.Version` (the python-semver library) is embedded concretely:
  `SemVer.parse?` follows python-semver's validation regular expression
  over the ASCII alphabet, and the three bump operations follow
  `Version.bump_patch` / `bump_minor` / `bump_major`.
* `tomlkit` (a format-preserving TOML round-trip library) is modelled
  abstractly by `FileContent`: a well-formed document is a `version`
  field plus `rest`, the byte-level remainder of the document that
  tomlkit preserves; a document whose parse fails (or which lacks the
  `project.version` field) is `malformed`.
* `questionary.select(...).ask()` is modelled as an input
  `Option IChoice`: `none` is the user declining, `some c` one of the
  three offered bump choices.
* `typer.Exit(code)` is modelled by the `Outcome` type together with
  `Outcome.exitCode`.
-/

namespace Rhiza

/-- A parsed semantic version, mirroring `semver.Version`:
`major`, `minor`, `patch` plus optional pre-release and build metadata. -/
structure SemVer where
  major : Nat
  minor : Nat
  patch : Nat
  prerelease : Option String
  build : Option String
  deriving DecidableEq, Repr

/-- Characters allowed in pre-release and build identifiers:
`[0-9a-zA-Z-]` in python-semver's regular expression. -/
def isIdentChar (c : Char) : Bool :=
  c.isDigit || c.isAlpha || c = '-'

/-- A numeric identifier, `0|[1-9][0-9]*`: nonempty, digits only, and a
leading `0` only in the single-character identifier `0`. -/
def isNumericId : List Char → Bool
  | [] => false
  | c :: cs => c.isDigit && cs.all Char.isDigit && (!(c = '0') || cs.isEmpty)

/-- The numeric value of a digit string (what Python's `int` computes). -/
def digitsToNat (l : List Char) : Nat :=
  l.foldl (fun n c => n * 10 + (c.toNat - '0'.toNat)) 0

/-- A pre-release identifier, `0|[1-9][0-9]*|[0-9]*[a-zA-Z-][0-9a-zA-Z-]*`:
either a numeric identifier, or a nonempty identifier-character string
containing at least one non-digit. -/
def isPrereleaseId (l : List Char) : Bool :=
  if l.all Char.isDigit then isNumericId l else l.all isIdentChar

/-- A build identifier, `[0-9a-zA-Z-]+`. -/
def isBuildId (l : List Char) : Bool :=
  !l.isEmpty && l.all isIdentChar

/-- Split a character list on every occurrence of `sep`
(like Python's `str.split`, keeping empty components). -/
def splitOnChar (sep : Char) : List Char → List (List Char)
  | [] => [[]]
  | c :: cs =>
    if c = sep then [] :: splitOnChar sep cs
    else
      match splitOnChar sep cs with
      | [] => [[c]]
      | r :: rs => (c :: r) :: rs

/-- The dot-separated pre-release section after the `-`. -/
def validPreChars (p : List Char) : Bool :=
  (splitOnChar '.' p).all isPrereleaseId

/-- The dot-separated build section after the `+`. -/
def validBuildChars (b : List Char) : Bool :=
  (splitOnChar '.' b).all isBuildId

/-- Parse `MAJOR.MINOR.PATCH[-PRERELEASE]` with a given build section:
the part of python-semver's regular expression before the optional `+`.
The first `-` (if any) starts the pre-release section, since the core
components consist of digits and dots only. -/
def parseCorePre (l : List Char) (build : Option String) : Option SemVer :=
  match splitOnChar '.' (l.takeWhile fun c => c ≠ '-') with
  | [ma, mi, pa] =>
    if isNumericId ma && isNumericId mi && isNumericId pa then
      match l.dropWhile (fun c => c ≠ '-') with
      | [] => some ⟨digitsToNat ma, digitsToNat mi, digitsToNat pa, none, build⟩
      | _ :: p =>
        if validPreChars p then
          some ⟨digitsToNat ma, digitsToNat mi, digitsToNat pa,
                some (String.mk p), build⟩
        else none
    else none
  | _ => none

/-- Parse a full semantic version character list: split off the build
section at the first `+` (a second `+` can match no part of the
regular expression, so more than one `+` fails). -/
def parseChars (l : List Char) : Option SemVer :=
  match splitOnChar '+' l with
  | [corePre] => parseCorePre corePre none
  | [corePre, b] =>
    if validBuildChars b then parseCorePre corePre (some (String.mk b))
    else none
  | _ => none

/-- Python's `$` anchor also matches just before one trailing newline, so
`semver.Version.parse` accepts a single trailing `\n`; strip it first. -/
def dropTrailingNewline (l : List Char) : List Char :=
  if l.getLast? = some '\n' then l.dropLast else l

/-- `semver.Version.parse`: `some v` where Python returns a `Version`,
`none` where it raises `ValueError`. -/
def SemVer.parse? (s : String) : Option SemVer :=
  parseChars (dropTrailingNewline s.data)

/-- `semver.Version.__str__`: `major.minor.patch`, then `-prerelease` when
the pre-release is truthy (present and nonempty), then `+build` likewise. -/
def SemVer.render (v : SemVer) : String :=
  toString v.major ++ "." ++ toString v.minor ++ "." ++ toString v.patch
    ++ (match v.prerelease with
        | none => ""
        | some p => if p = "" then "" else "-" ++ p)
    ++ (match v.build with
        | none => ""
        | some b => if b = "" then "" else "+" ++ b)

/-- `Version.bump_patch`: `Version(major, minor, patch + 1)`; pre-release
and build take their default `None`. -/
def SemVer.bump_patch (v : SemVer) : SemVer :=
  ⟨v.major, v.minor, v.patch + 1, none, none⟩

/-- `Version.bump_minor`: `Version(major, minor + 1)`; patch defaults to 0,
pre-release and build to `None`. -/
def SemVer.bump_minor (v : SemVer) : SemVer :=
  ⟨v.major, v.minor + 1, 0, none, none⟩

/-- `Version.bump_major`: `Version(major + 1)`; minor and patch default
to 0, pre-release and build to `None`. -/
def SemVer.bump_major (v : SemVer) : SemVer :=
  ⟨v.major + 1, 0, 0, none, none⟩

example : SemVer.parse? "1.2.3" = some ⟨1, 2, 3, none, none⟩ := by decide
example : SemVer.parse? "2.0.0-beta" = some ⟨2, 0, 0, some "beta", none⟩ := by
  decide
example : SemVer.parse? "1.2.3-rc.1+build.5" =
    some ⟨1, 2, 3, some "rc.1", some "build.5"⟩ := by decide
example : SemVer.parse? "01.2.3" = none := by decide
example : SemVer.parse? "1.2" = none := by decide
example : SemVer.parse? "patch" = none := by decide
example : SemVer.parse? "v1.2.3" = none := by decide
example : SemVer.parse? "1.2.3-" = none := by decide
example : SemVer.parse? "1.2.3-00" = none := by decide
example : SemVer.parse? "1.2.3-0a" = some ⟨1, 2, 3, some "0a", none⟩ := by
  decide
example : SemVer.render ⟨1, 10, 0, none, none⟩ = "1.10.0" := by decide
example : SemVer.render ⟨1, 2, 3, some "rc.1", some "b"⟩ = "1.2.3-rc.1+b" := by
  decide

/-- The `pyproject.toml` file as tomlkit sees it. `wellFormed version rest`
is a document that parses and has a `project.version` string field:
`version` is that field's value and `rest` the entirety of the remaining
document bytes (formatting and comments included), which tomlkit's
round-trip preserves. `malformed raw` is a document on which
`tomlkit.parse` raises, or which lacks the field (either raises inside
`get_current_version` / `update_version`). -/
inductive FileContent where
  | malformed (raw : String)
  | wellFormed (version : String) (rest : String)
  deriving DecidableEq, Repr

/-- The working directory: `pyproject.toml` is present (`some`) or
absent (`none`). -/
structure FS where
  pyproject : Option FileContent
  deriving DecidableEq, Repr

/-- `get_current_version` (bump.py lines 11-19): open `pyproject.toml`,
parse it, return `data["project"]["version"]`; any exception (missing
file, parse failure, missing field) is logged and becomes
`typer.Exit(code=1)`, modelled as `none`. -/
def get_current_version (fs : FS) : Option String :=
  match fs.pyproject with
  | some (.wellFormed v _) => some v
  | _ => none

/-- `update_version` (bump.py lines 21-34): re-parse the file, assign
`data["project"]["version"] = new_version`, write `tomlkit.dumps(data)`
back. Only the version field of the document changes; on any exception
(`none`) nothing is written and the command exits with code 1. -/
def update_version (fs : FS) (new_version : String) : Option FS :=
  match fs.pyproject with
  | some (.wellFormed _ rest) => some ⟨some (.wellFormed new_version rest)⟩
  | _ => none

/-- The answer of `questionary.select(...).ask()` when the user picks one
of the three offered labels; the user declining is `Option.none` around
this type. The labels are `"Patch (cur -> next)"` etc., so the
`startswith` dispatch in bump.py lines 86-91 recovers exactly this. -/
inductive IChoice where
  | patch
  | minor
  | major
  deriving DecidableEq, Repr

/-- Why an invocation exited with code 1; each constructor corresponds to
one `logger.error` site in bump.py. -/
inductive ErrKind where
  | ManifestNotFound
  | ManifestParseError
  | VersionParseError
  | InvalidVersionFormat
  | WriteFailure
  | VerificationFailed
  deriving DecidableEq, Repr

/-- How the invocation ended. `ok` (fall off the end after the success
log) and `dryRun` (the `return` at line 115) and `cancelled`
(`typer.Exit(code=0)` at line 84) exit with status 0; `err` is
`typer.Exit(code=1)`. The carried string is the `new_version_str` the
success / dry-run log message reports. -/
inductive Outcome where
  | ok (newVersion : String)
  | dryRun (newVersion : String)
  | cancelled
  | err (kind : ErrKind)
  deriving DecidableEq, Repr

/-- The process exit status of an outcome. -/
def Outcome.exitCode : Outcome → Nat
  | .err _ => 1
  | _ => 0

/-- Python's `if version:` on the optional CLI argument: `None` and the
empty string are falsy. -/
def versionProvided : Option String → Bool
  | none => false
  | some s => !(s = "")

/-- `version.startswith("v")` / `version[1:]` (bump.py lines 65-66):
strip one leading `v` if present. -/
def stripV (s : String) : String :=
  match s.data with
  | c :: t => if c = 'v' then String.mk t else s
  | [] => s

/-- Bump.py lines 55-91: determine `(bump_type, new_version_str)` from the
CLI argument or, when it is falsy, from the interactive answer. `none`
is the user declining the prompt (`typer.Exit(code=0)`). A provided
argument equal to `"patch"`, `"minor"` or `"major"` is a bump keyword
(checked before the `v`-strip); any other truthy argument is an explicit
version with one leading `v` stripped. -/
def selectTarget (version : Option String) (answer : Option IChoice) :
    Option (String × String) :=
  if versionProvided version then
    if version.getD "" = "patch" ∨ version.getD "" = "minor" ∨
        version.getD "" = "major" then some (version.getD "", "")
    else some ("", stripV (version.getD ""))
  else
    match answer with
    | none => none
    | some .patch => some ("patch", "")
    | some .minor => some ("minor", "")
    | some .major => some ("major", "")

/-- Bump.py lines 94-109: when a bump keyword was selected, render the
bumped current version; otherwise validate the explicit
`new_version_str` with `semver.Version.parse`, `none` on `ValueError`
(`Invalid version format`, exit 1). -/
def computeNewVersion (current : SemVer) (bump_type new_version_str : String) :
    Option String :=
  if bump_type = "" then
    match SemVer.parse? new_version_str with
    | some _ => some new_version_str
    | none => none
  else
    some (if bump_type = "patch" then current.bump_patch.render
          else if bump_type = "minor" then current.bump_minor.render
          else if bump_type = "major" then current.bump_major.render
          else new_version_str)

/-- Bump.py lines 122-125: re-read the version after the write and compare
it to `new_version_str`; a failed re-read exits 1 inside
`get_current_version`, a mismatch logs `Version update failed` and
exits 1. -/
def verifyUpdate (fs : FS) (new_version_str : String) : Outcome × FS :=
  match get_current_version fs with
  | none => (.err .ManifestParseError, fs)
  | some updated =>
    if updated = new_version_str then (.ok new_version_str, fs)
    else (.err .VerificationFailed, fs)

/-- `bump_command` (bump.py lines 36-128), sequenced exactly as the
source: existence check, read current version, parse it, determine the
target, compute/validate the new version, then either stop (dry run) or
write and verify. The pair is the outcome and the final state of the
working directory. -/
def bump_command (fs : FS) (version : Option String) (dry_run : Bool)
    (answer : Option IChoice) : Outcome × FS :=
  match fs.pyproject with
  | none => (.err .ManifestNotFound, fs)
  | some _ =>
    match get_current_version fs with
    | none => (.err .ManifestParseError, fs)
    | some current_version_str =>
      match SemVer.parse? current_version_str with
      | none => (.err .VersionParseError, fs)
      | some current_version =>
        match selectTarget version answer with
        | none => (.cancelled, fs)
        | some (bump_type, explicit_str) =>
          match computeNewVersion current_version bump_type explicit_str with
          | none => (.err .InvalidVersionFormat, fs)
          | some new_version_str =>
            if dry_run then (.dryRun new_version_str, fs)
            else
              match update_version fs new_version_str with
              | none => (.err .WriteFailure, fs)
              | some fs₂ => verifyUpdate fs₂ new_version_str

example :
    bump_command ⟨some (.wellFormed "0.1.0" "rest")⟩ (some "patch") false none
      = (.ok "0.1.1", ⟨some (.wellFormed "0.1.1" "rest")⟩) := by decide
example :
    bump_command ⟨some (.wellFormed "1.9.9" "rest")⟩ (some "minor") false none
      = (.ok "1.10.0", ⟨some (.wellFormed "1.10.0" "rest")⟩) := by decide
example :
    bump_command ⟨some (.wellFormed "2.0.0-beta" "r")⟩ (some "major") false none
      = (.ok "3.0.0", ⟨some (.wellFormed "3.0.0" "r")⟩) := by decide
example :
    bump_command ⟨some (.wellFormed "1.0.0" "r")⟩ (some "v1.5.0") false none
      = (.ok "1.5.0", ⟨some (.wellFormed "1.5.0" "r")⟩) := by decide
example :
    bump_command ⟨some (.wellFormed "1.0.0" "r")⟩ (some "not-a-version") false
      none = (.err .InvalidVersionFormat, ⟨some (.wellFormed "1.0.0" "r")⟩) :=
  by decide
example :
    bump_command ⟨none⟩ (some "patch") false none = (.err .ManifestNotFound, ⟨none⟩) := by decide
example :
    bump_command ⟨some (.wellFormed "1.0.0" "r")⟩ none false none
      = (.cancelled, ⟨some (.wellFormed "1.0.0" "r")⟩) := by decide
example :
    bump_command ⟨some (.wellFormed "1.0.0" "r")⟩ none false (some .minor)
      = (.ok "1.1.0", ⟨some (.wellFormed "1.1.0" "r")⟩) := by decide
example :
    bump_command ⟨some (.wellFormed "1.0.0" "r")⟩ (some "patch") true none
      = (.dryRun "0.1.1", ⟨some (.wellFormed "1.0.0" "r")⟩) → False := by decide
example :
    bump_command ⟨some (.wellFormed "1.0.0" "r")⟩ (some "patch") true none
      = (.dryRun "1.0.1", ⟨some (.wellFormed "1.0.0" "r")⟩) := by decide
example :
    bump_command ⟨some (.wellFormed "vbad" "r")⟩ (some "1.2.3") false none
      = (.err .VersionParseError, ⟨some (.wellFormed "vbad" "r")⟩) := by
  decide
example :
    bump_command ⟨some (.malformed "oops")⟩ (some "patch") false none
      = (.err .ManifestParseError, ⟨some (.malformed "oops")⟩) := by decide
example :
    bump_command ⟨some (.wellFormed "1.0.0" "r")⟩ (some "vpatch") false none
      = (.err .InvalidVersionFormat, ⟨some (.wellFormed "1.0.0" "r")⟩) := by
  decide

/-! ### Structural lemmas about the parser and the command -/

theorem splitOnChar_ne_nil (sep : Char) (l : List Char) :
    splitOnChar sep l ≠ [] := by
  induction l with
  | nil => simp [splitOnChar]
  | cons c cs ih =>
    simp only [splitOnChar]
    split
    · simp
    · rcases h : splitOnChar sep cs with _ | ⟨r, rs⟩
      · simp
      · simp [h]

theorem splitOnChar_cons_of_ne (sep c : Char) (t : List Char) (h : ¬c = sep) :
    ∃ r rs, splitOnChar sep t = r :: rs ∧
      splitOnChar sep (c :: t) = (c :: r) :: rs := by
  rcases ht : splitOnChar sep t with _ | ⟨r, rs⟩
  · exact absurd ht (splitOnChar_ne_nil sep t)
  · exact ⟨r, rs, rfl, by simp [splitOnChar, h, ht]⟩

theorem splitOnChar_cons_self (sep : Char) (t : List Char) :
    splitOnChar sep (sep :: t) = [] :: splitOnChar sep t := by
  simp [splitOnChar]

theorem splitOnChar_head_eq (sep : Char) (l rt : List Char)
    (rs : List (List Char)) (c : Char)
    (h : splitOnChar sep l = (c :: rt) :: rs) : ∃ t, l = c :: t := by
  rcases l with _ | ⟨a, t⟩
  · simp [splitOnChar] at h
  · by_cases ha : a = sep
    · rw [ha, splitOnChar_cons_self] at h
      simp at h
    · obtain ⟨r, rs₂, _, hsp⟩ := splitOnChar_cons_of_ne sep a t ha
      rw [hsp] at h
      injection h with h1 _
      injection h1 with h2 _
      exact ⟨t, by rw [h2]⟩

theorem takeWhile_head_eq (p : Char → Bool) (l : List Char) (c : Char)
    (t : List Char) (h : l.takeWhile p = c :: t) : ∃ u, l = c :: u := by
  rcases l with _ | ⟨a, u⟩
  · simp at h
  · simp only [List.takeWhile] at h
    split at h
    · injection h with h1 _
      exact ⟨u, by rw [h1]⟩
    · simp at h

theorem isNumericId_shape (l : List Char) (h : isNumericId l = true) :
    ∃ c t, l = c :: t ∧ c.isDigit = true := by
  rcases l with _ | ⟨c, t⟩
  · simp [isNumericId] at h
  · refine ⟨c, t, rfl, ?_⟩
    simp only [isNumericId, Bool.and_eq_true] at h
    exact h.1.1

theorem parseCorePre_shape (l : List Char) (b : Option String) (v : SemVer)
    (h : parseCorePre l b = some v) :
    ∃ c t, l = c :: t ∧ c.isDigit = true := by
  unfold parseCorePre at h
  split at h
  · rename_i ma mi pa heq
    split at h
    · rename_i hnum
      obtain ⟨mc, mt, hma, hdig⟩ := isNumericId_shape ma (by
        simp only [Bool.and_eq_true] at hnum
        exact hnum.1.1)
      rw [hma] at heq
      obtain ⟨t₂, hcore⟩ := splitOnChar_head_eq '.' _ _ _ mc heq
      obtain ⟨u, hl⟩ := takeWhile_head_eq _ l mc t₂ hcore
      exact ⟨mc, u, hl, hdig⟩
    · simp at h
  · simp at h

theorem parseChars_shape (l : List Char) (v : SemVer)
    (h : parseChars l = some v) :
    ∃ c t, l = c :: t ∧ c.isDigit = true := by
  unfold parseChars at h
  split at h
  · rename_i corePre heq
    obtain ⟨c, t, hcp, hdig⟩ := parseCorePre_shape corePre none v h
    rw [hcp] at heq
    obtain ⟨u, hl⟩ := splitOnChar_head_eq '+' l t [] c heq
    exact ⟨c, u, hl, hdig⟩
  · rename_i corePre b heq
    split at h
    · rename_i hb
      obtain ⟨c, t, hcp, hdig⟩ := parseCorePre_shape corePre _ v h
      rw [hcp] at heq
      obtain ⟨u, hl⟩ := splitOnChar_head_eq '+' l t [b] c heq
      exact ⟨c, u, hl, hdig⟩
    · simp at h
  · simp at h

theorem parse?_head_digit (s : String) (v : SemVer)
    (h : SemVer.parse? s = some v) :
    ∃ c t, s.data = c :: t ∧ c.isDigit = true := by
  unfold SemVer.parse? dropTrailingNewline at h
  split at h
  · obtain ⟨c, t, hdl, hdig⟩ := parseChars_shape _ v h
    have hne : s.data ≠ [] := by
      intro h0
      rw [h0] at hdl
      simp at hdl
    refine ⟨c, t ++ [s.data.getLast hne], ?_, hdig⟩
    conv_lhs => rw [← List.dropLast_append_getLast hne]
    rw [hdl]
    simp
  · exact parseChars_shape s.data v h

theorem parse?_facts (s : String) (v : SemVer) (h : SemVer.parse? s = some v) :
    s ≠ "" ∧ s ≠ "patch" ∧ s ≠ "minor" ∧ s ≠ "major" ∧ stripV s = s ∧
      "v" ++ s ≠ "" ∧ "v" ++ s ≠ "patch" ∧ "v" ++ s ≠ "minor" ∧
      "v" ++ s ≠ "major" ∧ stripV ("v" ++ s) = s := by
  obtain ⟨c, t, hdata, hdig⟩ := parse?_head_digit s v h
  have hvdata : ("v" ++ s).data = 'v' :: s.data := by
    rw [String.data_append]
    rfl
  have hne : ∀ k : String, k.data.head?.all (fun c₂ => !c₂.isDigit) = true →
      s ≠ k := by
    intro k hk he
    rw [he] at hdata
    rw [hdata] at hk
    simp at hk
    rw [hk] at hdig
    cases hdig
  have hvne : ∀ k : String, k.data.head?.all (fun c₂ => !(c₂ = 'v')) = true →
      "v" ++ s ≠ k := by
    intro k hk he
    rw [he] at hvdata
    rw [hvdata] at hk
    simp at hk
  have hsne : s ≠ "" := by
    intro he
    rw [he] at hdata
    cases hdata
  have hvsne : "v" ++ s ≠ "" := by
    intro he
    rw [he] at hvdata
    cases hvdata
  have hstrip : stripV s = s := by
    unfold stripV
    split
    · rename_i c₂ t₂ heq
      rw [hdata] at heq
      injection heq with h1 h2
      have hcv : ¬c₂ = 'v' := by
        intro hv2
        rw [h1, hv2] at hdig
        exact absurd hdig (by decide)
      rw [if_neg hcv]
    · rfl
  have hstripv : stripV ("v" ++ s) = s := by
    unfold stripV
    split
    · rename_i c₂ t₂ heq
      rw [hvdata] at heq
      injection heq with h1 h2
      rw [← h1, ← h2, if_pos rfl]
    · rename_i heq
      rw [hvdata] at heq
      cases heq
  exact ⟨hsne, hne "patch" (by decide), hne "minor" (by decide),
    hne "major" (by decide), hstrip, hvsne, hvne "patch" (by decide),
    hvne "minor" (by decide), hvne "major" (by decide), hstripv⟩

theorem get_current_version_some (p : Option FileContent) (cur : String)
    (h : get_current_version ⟨p⟩ = some cur) :
    ∃ rest, p = some (.wellFormed cur rest) := by
  rcases p with _ | c
  · simp [get_current_version] at h
  · rcases c with ⟨raw⟩ | ⟨ver, rest⟩
    · simp [get_current_version] at h
    · refine ⟨rest, ?_⟩
      simp [get_current_version] at h
      rw [h]

theorem selectTarget_keyword (s : String) (answer : Option IChoice)
    (h : s = "patch" ∨ s = "minor" ∨ s = "major") :
    selectTarget (some s) answer = some (s, "") := by
  have hne : ¬s = "" := by
    rcases h with h | h | h <;> simp [h]
  simp [selectTarget, versionProvided, hne, h]

theorem selectTarget_explicit (s : String) (answer : Option IChoice)
    (h0 : ¬s = "") (h1 : ¬s = "patch") (h2 : ¬s = "minor")
    (h3 : ¬s = "major") :
    selectTarget (some s) answer = some ("", stripV s) := by
  simp [selectTarget, versionProvided, h0, h1, h2, h3]

theorem bump_command_cancelled (cur rest : String) (v : SemVer)
    (version : Option String) (dry_run : Bool) (answer : Option IChoice)
    (hv : SemVer.parse? cur = some v)
    (hsel : selectTarget version answer = none) :
    bump_command ⟨some (.wellFormed cur rest)⟩ version dry_run answer
      = (.cancelled, ⟨some (.wellFormed cur rest)⟩) := by
  simp [bump_command, get_current_version, hv, hsel]

theorem bump_command_invalid (cur rest : String) (v : SemVer)
    (version : Option String) (dry_run : Bool) (answer : Option IChoice)
    (bt ex : String) (hv : SemVer.parse? cur = some v)
    (hsel : selectTarget version answer = some (bt, ex))
    (hcmp : computeNewVersion v bt ex = none) :
    bump_command ⟨some (.wellFormed cur rest)⟩ version dry_run answer
      = (.err .InvalidVersionFormat, ⟨some (.wellFormed cur rest)⟩) := by
  simp [bump_command, get_current_version, hv, hsel, hcmp]

theorem bump_command_success (cur rest : String) (v : SemVer)
    (version : Option String) (dry_run : Bool) (answer : Option IChoice)
    (bt ex nv : String) (hv : SemVer.parse? cur = some v)
    (hsel : selectTarget version answer = some (bt, ex))
    (hcmp : computeNewVersion v bt ex = some nv) :
    bump_command ⟨some (.wellFormed cur rest)⟩ version dry_run answer
      = if dry_run then (.dryRun nv, ⟨some (.wellFormed cur rest)⟩)
        else (.ok nv, ⟨some (.wellFormed nv rest)⟩) := by
  cases dry_run <;>
    simp [bump_command, get_current_version, hv, hsel, hcmp, update_version,
      verifyUpdate]

/-! ### The claims -/

/-- C1: for every valid current semantic version, a `patch` bump increments
patch and keeps major and minor; a `minor` bump increments minor and
zeroes patch; a `major` bump increments major and zeroes minor and
patch; all three clear pre-release and build metadata. -/
theorem C1_bump_arithmetic (s : String) (v : SemVer)
    (h : SemVer.parse? s = some v) :
    (v.bump_patch.major = v.major ∧ v.bump_patch.minor = v.minor ∧
      v.bump_patch.patch = v.patch + 1 ∧
      v.bump_patch.prerelease = none ∧ v.bump_patch.build = none) ∧
    (v.bump_minor.major = v.major ∧ v.bump_minor.minor = v.minor + 1 ∧
      v.bump_minor.patch = 0 ∧
      v.bump_minor.prerelease = none ∧ v.bump_minor.build = none) ∧
    (v.bump_major.major = v.major + 1 ∧ v.bump_major.minor = 0 ∧
      v.bump_major.patch = 0 ∧
      v.bump_major.prerelease = none ∧ v.bump_major.build = none) :=
  ⟨⟨rfl, rfl, rfl, rfl, rfl⟩, ⟨rfl, rfl, rfl, rfl, rfl⟩,
    ⟨rfl, rfl, rfl, rfl, rfl⟩⟩

/-- Witness for C1 at the spec's example `2.0.0-beta`. -/
theorem C1_bump_arithmetic_witness :
    SemVer.parse? "2.0.0-beta" = some ⟨2, 0, 0, some "beta", none⟩ ∧
    ((⟨2, 0, 0, some "beta", none⟩ : SemVer).bump_major.major = 2 + 1 ∧
      (⟨2, 0, 0, some "beta", none⟩ : SemVer).bump_major.minor = 0 ∧
      (⟨2, 0, 0, some "beta", none⟩ : SemVer).bump_major.patch = 0 ∧
      (⟨2, 0, 0, some "beta", none⟩ : SemVer).bump_major.prerelease = none ∧
      (⟨2, 0, 0, some "beta", none⟩ : SemVer).bump_major.build = none) :=
  ⟨by decide,
    (C1_bump_arithmetic "2.0.0-beta" ⟨2, 0, 0, some "beta", none⟩
      (by decide)).2.2⟩

/-- C2: whenever the non-dry-run invocation succeeds with new version
`nv`, re-reading the manifest afterwards yields exactly `nv`; and the
verify step turns any mismatch between the re-read value and the
written value into `VerificationFailed`. -/
theorem C2_write_verified (fs : FS) (version : Option String)
    (answer : Option IChoice) (nv : String)
    (h : (bump_command fs version false answer).1 = .ok nv) :
    get_current_version (bump_command fs version false answer).2 = some nv ∧
    (∀ (fs₂ : FS) (w upd : String), get_current_version fs₂ = some upd →
      ¬upd = w → verifyUpdate fs₂ w = (.err .VerificationFailed, fs₂)) := by
  constructor
  · obtain ⟨p⟩ := fs
    rcases p with _ | c
    · simp [bump_command] at h
    · rcases c with ⟨raw⟩ | ⟨cur, rest⟩
      · simp [bump_command, get_current_version] at h
      · rcases hv : SemVer.parse? cur with _ | v
        · simp [bump_command, get_current_version, hv] at h
        · rcases hsel : selectTarget version answer with _ | ⟨bt, ex⟩
          · rw [bump_command_cancelled cur rest v version false answer hv
              hsel] at h
            simp at h
          · rcases hcmp : computeNewVersion v bt ex with _ | nv₂
            · rw [bump_command_invalid cur rest v version false answer bt ex
                hv hsel hcmp] at h
              simp at h
            · rw [bump_command_success cur rest v version false answer bt ex
                nv₂ hv hsel hcmp] at h ⊢
              simp only [Bool.false_eq_true, if_false] at h ⊢
              simp at h
              simp [get_current_version, h]
  · intro fs₂ w upd hread hne
    simp only [verifyUpdate, hread]
    rw [if_neg hne]

/-- Witness for C2: a successful `patch` run on `0.1.0` re-reads `0.1.1`,
and a mismatching re-read fails verification. -/
theorem C2_write_verified_witness :
    get_current_version
        (bump_command ⟨some (.wellFormed "0.1.0" "r")⟩ (some "patch") false
          none).2 = some "0.1.1" ∧
    verifyUpdate ⟨some (.wellFormed "9.9.9" "x")⟩ "1.0.0"
        = (.err .VerificationFailed, ⟨some (.wellFormed "9.9.9" "x")⟩) :=
  ⟨(C2_write_verified ⟨some (.wellFormed "0.1.0" "r")⟩ (some "patch") none
      "0.1.1" (by decide)).1,
   (C2_write_verified ⟨some (.wellFormed "0.1.0" "r")⟩ (some "patch") none
      "0.1.1" (by decide)).2 ⟨some (.wellFormed "9.9.9" "x")⟩ "1.0.0" "9.9.9"
      (by decide) (by decide)⟩

/-- C3: only the `project.version` field changes: `update_version` replaces
exactly the version of a well-formed document, and after any invocation
the non-version content `rest` of the manifest is byte-for-byte what it
was before. -/
theorem C3_only_version_field (curv rest : String) (version : Option String)
    (dry_run : Bool) (answer : Option IChoice) :
    (∀ nv, update_version ⟨some (.wellFormed curv rest)⟩ nv
        = some ⟨some (.wellFormed nv rest)⟩) ∧
    ∃ v₂, (bump_command ⟨some (.wellFormed curv rest)⟩ version dry_run
        answer).2 = ⟨some (.wellFormed v₂ rest)⟩ := by
  refine ⟨fun nv => rfl, ?_⟩
  rcases hv : SemVer.parse? curv with _ | v
  · exact ⟨curv, by simp [bump_command, get_current_version, hv]⟩
  · rcases hsel : selectTarget version answer with _ | ⟨bt, ex⟩
    · exact ⟨curv, by
        rw [bump_command_cancelled curv rest v version dry_run answer hv
          hsel]⟩
    · rcases hcmp : computeNewVersion v bt ex with _ | nv
      · exact ⟨curv, by
          rw [bump_command_invalid curv rest v version dry_run answer bt ex
            hv hsel hcmp]⟩
      · rcases dry_run with _ | _
        · refine ⟨nv, ?_⟩
          rw [bump_command_success curv rest v version false answer bt ex nv
            hv hsel hcmp]
          rfl
        · refine ⟨curv, ?_⟩
          rw [bump_command_success curv rest v version true answer bt ex nv
            hv hsel hcmp]
          rfl


/-- C4: with `--dry-run` the manifest is never written — the file system
after the invocation is identical to before — while computation and
validation still run: the dry run reports new version `n` exactly when
the real run would succeed writing `n`. -/
theorem C4_dry_run_no_write (fs : FS) (version : Option String)
    (answer : Option IChoice) :
    (bump_command fs version true answer).2 = fs ∧
    (∀ n, (bump_command fs version true answer).1 = .dryRun n ↔
      (bump_command fs version false answer).1 = .ok n) := by
  obtain ⟨p⟩ := fs
  rcases p with _ | c
  · exact ⟨rfl, fun n => by simp [bump_command]⟩
  · rcases c with ⟨raw⟩ | ⟨cur, rest⟩
    · exact ⟨rfl, fun n => by simp [bump_command, get_current_version]⟩
    · rcases hv : SemVer.parse? cur with _ | v
      · exact ⟨by simp [bump_command, get_current_version, hv],
          fun n => by simp [bump_command, get_current_version, hv]⟩
      · rcases hsel : selectTarget version answer with _ | ⟨bt, ex⟩
        · rw [bump_command_cancelled cur rest v version true answer hv hsel,
            bump_command_cancelled cur rest v version false answer hv hsel]
          exact ⟨rfl, fun n => by simp⟩
        · rcases hcmp : computeNewVersion v bt ex with _ | nv
          · rw [bump_command_invalid cur rest v version true answer bt ex hv
              hsel hcmp,
              bump_command_invalid cur rest v version false answer bt ex hv
                hsel hcmp]
            exact ⟨rfl, fun n => by simp⟩
          · rw [bump_command_success cur rest v version true answer bt ex nv
              hv hsel hcmp,
              bump_command_success cur rest v version false answer bt ex nv
                hv hsel hcmp]
            exact ⟨rfl, fun n => by simp⟩

/-- Witness for C4 at a concrete dry run. -/
theorem C4_dry_run_no_write_witness :
    (bump_command ⟨some (.wellFormed "1.0.0" "r")⟩ (some "patch") true
        none).2 = ⟨some (.wellFormed "1.0.0" "r")⟩ ∧
    ((bump_command ⟨some (.wellFormed "1.0.0" "r")⟩ (some "patch") true
        none).1 = .dryRun "1.0.1" ↔
      (bump_command ⟨some (.wellFormed "1.0.0" "r")⟩ (some "patch") false
        none).1 = .ok "1.0.1") :=
  ⟨(C4_dry_run_no_write ⟨some (.wellFormed "1.0.0" "r")⟩ (some "patch")
      none).1,
   (C4_dry_run_no_write ⟨some (.wellFormed "1.0.0" "r")⟩ (some "patch")
      none).2 "1.0.1"⟩

/-- C5: a current version field that is not valid semantic version text is
fatal (exit 1) for every request kind, including explicit-version
requests that never use the current version arithmetically, and for dry
runs. -/
theorem C5_invalid_current_fatal (p : Option FileContent) (cur : String)
    (version : Option String) (dry_run : Bool) (answer : Option IChoice)
    (hread : get_current_version ⟨p⟩ = some cur)
    (hbad : SemVer.parse? cur = none) :
    bump_command ⟨p⟩ version dry_run answer
        = (.err .VersionParseError, ⟨p⟩) ∧
    (bump_command ⟨p⟩ version dry_run answer).1.exitCode = 1 := by
  obtain ⟨rest, hp⟩ := get_current_version_some p cur hread
  subst hp
  have h1 : bump_command ⟨some (.wellFormed cur rest)⟩ version dry_run answer
      = (.err .VersionParseError, ⟨some (.wellFormed cur rest)⟩) := by
    simp [bump_command, get_current_version, hbad]
  exact ⟨h1, by rw [h1]; rfl⟩

/-- Witness for C5: an explicit request over an invalid current version. -/
theorem C5_invalid_current_fatal_witness :
    bump_command ⟨some (.wellFormed "three.four" "r")⟩ (some "1.2.3") false
        none
      = (.err .VersionParseError, ⟨some (.wellFormed "three.four" "r")⟩) ∧
    (bump_command ⟨some (.wellFormed "three.four" "r")⟩ (some "1.2.3") false
        none).1.exitCode = 1 :=
  C5_invalid_current_fatal (some (.wellFormed "three.four" "r")) "three.four"
    (some "1.2.3") false none (by decide) (by decide)

/-- C6: an absent manifest fails with `ManifestNotFound` before any other
step runs — for every argument, dry-run flag and interactive answer the
result is immediate and the file system untouched — with exit status 1. -/
theorem C6_manifest_not_found (fs : FS) (version : Option String)
    (dry_run : Bool) (answer : Option IChoice) (h : fs.pyproject = none) :
    bump_command fs version dry_run answer = (.err .ManifestNotFound, fs) ∧
    (bump_command fs version dry_run answer).1.exitCode = 1 := by
  obtain ⟨p⟩ := fs
  simp only at h
  subst h
  exact ⟨rfl, rfl⟩

/-- Witness for C6. -/
theorem C6_manifest_not_found_witness :
    bump_command ⟨none⟩ (some "patch") false none
        = (.err .ManifestNotFound, ⟨none⟩) ∧
    (bump_command ⟨none⟩ (some "patch") false none).1.exitCode = 1 :=
  C6_manifest_not_found ⟨none⟩ (some "patch") false none rfl

/-- C7: an explicit argument whose `v`-stripped form does not parse as a
semantic version fails with `InvalidVersionFormat` and exit status 1,
leaving the manifest unwritten; a valid explicit input such as `v1.5.0`
is accepted and yields `1.5.0`. -/
theorem C7_explicit_validation (cur rest input : String) (v : SemVer)
    (dry_run : Bool) (answer : Option IChoice)
    (hcur : SemVer.parse? cur = some v)
    (h0 : ¬input = "") (h1 : ¬input = "patch") (h2 : ¬input = "minor")
    (h3 : ¬input = "major")
    (hbad : SemVer.parse? (stripV input) = none) :
    bump_command ⟨some (.wellFormed cur rest)⟩ (some input) dry_run answer
        = (.err .InvalidVersionFormat, ⟨some (.wellFormed cur rest)⟩) ∧
    (bump_command ⟨some (.wellFormed cur rest)⟩ (some input) dry_run
        answer).1.exitCode = 1 ∧
    (∀ (r₂ : String) (a₂ : Option IChoice),
      bump_command ⟨some (.wellFormed "1.0.0" r₂)⟩ (some "v1.5.0") false a₂
        = (.ok "1.5.0", ⟨some (.wellFormed "1.5.0" r₂)⟩)) := by
  have hsel := selectTarget_explicit input answer h0 h1 h2 h3
  have hcmp : computeNewVersion v "" (stripV input) = none := by
    simp [computeNewVersion, hbad]
  have hmain := bump_command_invalid cur rest v (some input) dry_run answer
    "" (stripV input) hcur hsel hcmp
  refine ⟨hmain, by rw [hmain]; rfl, ?_⟩
  intro r₂ a₂
  have hsel₂ : selectTarget (some "v1.5.0") a₂ = some ("", "1.5.0") := by
    rw [selectTarget_explicit "v1.5.0" a₂ (by decide) (by decide) (by decide)
      (by decide)]
    rfl
  have hrun := bump_command_success "1.0.0" r₂ ⟨1, 0, 0, none, none⟩
    (some "v1.5.0") false a₂ "" "1.5.0" "1.5.0" (by decide) hsel₂ (by decide)
  rw [hrun]
  rfl

/-- Witness for C7 at the spec's example `not-a-version`. -/
theorem C7_explicit_validation_witness :
    bump_command ⟨some (.wellFormed "1.0.0" "r")⟩ (some "not-a-version") false
        none
      = (.err .InvalidVersionFormat, ⟨some (.wellFormed "1.0.0" "r")⟩) ∧
    bump_command ⟨some (.wellFormed "1.0.0" "doc")⟩ (some "v1.5.0") false none
      = (.ok "1.5.0", ⟨some (.wellFormed "1.5.0" "doc")⟩) :=
  ⟨(C7_explicit_validation "1.0.0" "r" "not-a-version" ⟨1, 0, 0, none, none⟩
      false none (by decide) (by decide) (by decide) (by decide) (by decide)
      (by decide)).1,
   (C7_explicit_validation "1.0.0" "r" "not-a-version" ⟨1, 0, 0, none, none⟩
      false none (by decide) (by decide) (by decide) (by decide) (by decide)
      (by decide)).2.2 "doc" none⟩

/-- C8: for every semantic version string `s`, the invocation with explicit
argument `"v" ++ s` and the one with argument `s` behave identically:
the single leading `v` is stripped before validation and the stripped
form is what is validated and written. -/
theorem C8_v_prefix_equiv (fs : FS) (dry_run : Bool)
    (answer : Option IChoice) (s : String) (v : SemVer)
    (h : SemVer.parse? s = some v) :
    bump_command fs (some ("v" ++ s)) dry_run answer
      = bump_command fs (some s) dry_run answer := by
  obtain ⟨hs0, hs1, hs2, hs3, hstrip, hv0, hv1, hv2, hv3, hstripv⟩ :=
    parse?_facts s v h
  have hsel₁ : selectTarget (some ("v" ++ s)) answer = some ("", s) := by
    rw [selectTarget_explicit _ answer hv0 hv1 hv2 hv3, hstripv]
  have hsel₂ : selectTarget (some s) answer = some ("", s) := by
    rw [selectTarget_explicit _ answer hs0 hs1 hs2 hs3, hstrip]
  obtain ⟨p⟩ := fs
  rcases p with _ | c
  · rfl
  · rcases c with ⟨raw⟩ | ⟨cur, rest⟩
    · rfl
    · rcases hcv : SemVer.parse? cur with _ | cv
      · simp [bump_command, get_current_version, hcv]
      · rcases hcmp : computeNewVersion cv "" s with _ | nv
        · rw [bump_command_invalid cur rest cv (some ("v" ++ s)) dry_run
            answer "" s hcv hsel₁ hcmp,
            bump_command_invalid cur rest cv (some s) dry_run answer "" s hcv
              hsel₂ hcmp]
        · rw [bump_command_success cur rest cv (some ("v" ++ s)) dry_run
            answer "" s nv hcv hsel₁ hcmp,
            bump_command_success cur rest cv (some s) dry_run answer "" s nv
              hcv hsel₂ hcmp]

/-- Witness for C8 at `s = "1.2.3"`. -/
theorem C8_v_prefix_equiv_witness :
    bump_command ⟨some (.wellFormed "1.0.0" "r")⟩ (some ("v" ++ "1.2.3"))
        false none
      = bump_command ⟨some (.wellFormed "1.0.0" "r")⟩ (some "1.2.3") false
        none :=
  C8_v_prefix_equiv ⟨some (.wellFormed "1.0.0" "r")⟩ false none "1.2.3"
    ⟨1, 2, 3, none, none⟩ (by decide)

/-- C9: declining the interactive selection ends the invocation as a clean
no-op with exit status 0 and no write, while every error outcome of any
invocation exits with status 1. -/
theorem C9_cancel_clean_exit (cur rest : String) (v : SemVer)
    (version : Option String) (dry_run : Bool)
    (hv : SemVer.parse? cur = some v)
    (hver : versionProvided version = false) :
    bump_command ⟨some (.wellFormed cur rest)⟩ version dry_run none
        = (.cancelled, ⟨some (.wellFormed cur rest)⟩) ∧
    Outcome.cancelled.exitCode = 0 ∧
    (∀ (fs₂ : FS) (ver₂ : Option String) (dr₂ : Bool)
        (ans₂ : Option IChoice) (k : ErrKind),
      (bump_command fs₂ ver₂ dr₂ ans₂).1 = .err k →
      (bump_command fs₂ ver₂ dr₂ ans₂).1.exitCode = 1) := by
  refine ⟨?_, rfl, ?_⟩
  · exact bump_command_cancelled cur rest v version dry_run none hv
      (by simp [selectTarget, hver])
  · intro fs₂ ver₂ dr₂ ans₂ k hk
    rw [hk]
    rfl

/-- Witness for C9: declining the prompt on current version `1.0.0`. -/
theorem C9_cancel_clean_exit_witness :
    bump_command ⟨some (.wellFormed "1.0.0" "r")⟩ none false none
        = (.cancelled, ⟨some (.wellFormed "1.0.0" "r")⟩) ∧
    Outcome.cancelled.exitCode = 0 :=
  ⟨(C9_cancel_clean_exit "1.0.0" "r" ⟨1, 0, 0, none, none⟩ none false
      (by decide) (by decide)).1,
   (C9_cancel_clean_exit "1.0.0" "r" ⟨1, 0, 0, none, none⟩ none false
      (by decide) (by decide)).2.1⟩

/-- C10: the exact strings `patch`, `minor` and `major` are always bump
keywords and never explicit versions; the keyword test precedes the
`v`-strip, so every other nonempty argument — `vpatch` included, which
strips to `patch` — is an explicit version subject to semantic-version
validation. -/
theorem C10_keyword_precedence :
    (∀ (s : String) (answer : Option IChoice),
      s = "patch" ∨ s = "minor" ∨ s = "major" →
        selectTarget (some s) answer = some (s, "")) ∧
    (∀ (s : String) (answer : Option IChoice),
      ¬s = "" → ¬s = "patch" → ¬s = "minor" → ¬s = "major" →
        selectTarget (some s) answer = some ("", stripV s)) ∧
    (∀ (rest : String) (dry_run : Bool) (answer : Option IChoice),
      bump_command ⟨some (.wellFormed "1.0.0" rest)⟩ (some "vpatch") dry_run
          answer
        = (.err .InvalidVersionFormat, ⟨some (.wellFormed "1.0.0" rest)⟩)) := by
  refine ⟨selectTarget_keyword, selectTarget_explicit, ?_⟩
  intro rest dry_run answer
  have hsel : selectTarget (some "vpatch") answer = some ("", "patch") := by
    rw [selectTarget_explicit "vpatch" answer (by decide) (by decide)
      (by decide) (by decide)]
    rfl
  exact bump_command_invalid "1.0.0" rest ⟨1, 0, 0, none, none⟩
    (some "vpatch") dry_run answer "" "patch" (by decide) hsel (by decide)

/-- Witness for C10. -/
theorem C10_keyword_precedence_witness :
    selectTarget (some "patch") none = some ("patch", "") ∧
    selectTarget (some "v2.0.0") none = some ("", stripV "v2.0.0") ∧
    bump_command ⟨some (.wellFormed "1.0.0" "")⟩ (some "vpatch") false none
      = (.err .InvalidVersionFormat, ⟨some (.wellFormed "1.0.0" "")⟩) :=
  ⟨C10_keyword_precedence.1 "patch" none (Or.inl rfl),
   C10_keyword_precedence.2.1 "v2.0.0" none (by decide) (by decide)
     (by decide) (by decide),
   C10_keyword_precedence.2.2 "" false none⟩

end Rhiza
